import Mathlib

/-!
Verification development for the `cyber-organic-portfolio` single-page
scroll-driven 3D audio/visual experience (`src/App.tsx`).

The embedding below models, in Lean:
  * the transient animation parameter records (`visualParams`, `audioParams`)
    and the scene-graph / audio-graph objects they are written to;
  * the `initAudio` initialisation routine and the `Tone.Loop` callback;
  * the `useFrame` per-frame callback (pure state-transformer form, plus an
    instrumented form where every ref dereference can fail, used to verify
    the null-guard discipline);
  * the `useGSAP` scroll-scrubbed timeline as a list of stages of tween
    targets, together with the piecewise-linear scroll-fraction → parameter
    mapping that GSAP's `scrub` realises for it.

Numeric values are rationals; colors are RGB channel triples (GSAP tweens
colors channel-wise).
-/

namespace Portfolio

/-- RGB color with rational channels; hex colors from the source are decoded
channel-wise, e.g. the literal for white is (255, 255, 255). -/
structure RGB where
  r : ℚ
  g : ℚ
  b : ℚ
deriving DecidableEq, Repr

/-- Hex color `#ffffff` from the source. -/
def colorWhite : RGB := ⟨255, 255, 255⟩

/-- Hex color `#4ecdc4` from the source (stage-1 / Adrenaline target). -/
def colorTeal : RGB := ⟨78, 205, 196⟩

/-- Hex color `#ff6b6b` from the source (stage-2 / Panic target). -/
def colorRed : RGB := ⟨255, 107, 107⟩

/-- Three-component vector (positions, rotations, scales). -/
structure Vec3 where
  x : ℚ
  y : ℚ
  z : ℚ
deriving DecidableEq, Repr

/-- The `visualParams` ref: `{ color: '#ffffff', distort: 0.3, opacity: 0.5 }`. -/
structure VisualParams where
  color : RGB
  distort : ℚ
  opacity : ℚ
deriving DecidableEq, Repr

/-- Initial value of the `visualParams` ref. -/
def visualParamsInit : VisualParams := ⟨colorWhite, 0.3, 0.5⟩

/-- The `audioParams` ref: `{ bpm: 60, distort: 0, reverbWet: 0.3 }`. -/
structure AudioParams where
  bpm : ℚ
  distort : ℚ
  reverbWet : ℚ
deriving DecidableEq, Repr

/-- Initial value of the `audioParams` ref. -/
def audioParamsInit : AudioParams := ⟨60, 0, 0.3⟩

/-! ## Timeline stages

The `useGSAP` timeline consists of three `.to`-blocks (Stage 1..3); within a
stage every tween is attached at position `'<'`, so all tweens of a stage run
concurrently over one duration unit, and the whole timeline lasts 3 units.
Each stage is recorded as the set of tween targets it declares; a `none`
field is not tweened by that stage. -/

/-- Tween targets of one stage on the `visualParams` record. -/
structure VisualTween where
  color : Option RGB
  distort : Option ℚ
  opacity : Option ℚ
deriving DecidableEq, Repr

/-- Tween targets of one stage on the `audioParams` record. -/
structure AudioTween where
  bpm : Option ℚ
  distort : Option ℚ
  reverbWet : Option ℚ
deriving DecidableEq, Repr

/-- Per-axis tween targets on a `Vec3` (e.g. `{ z: 1.5, x: 0.5 }`). -/
structure VecTween where
  x : Option ℚ
  y : Option ℚ
  z : Option ℚ
deriving DecidableEq, Repr

/-- The JavaScript constant `Math.PI`: the IEEE-754 double nearest π,
exactly `884279719003555 / 2^48`. -/
def mathPI : ℚ := 884279719003555 / 281474976710656

/-- One stage of the scroll timeline: tween targets for the group position,
group rotation (y), the wireframe scale, the visual parameter record (with
the optional `fromTo` start values of stage 1) and the audio parameter
record. -/
structure Stage where
  groupPosition : VecTween
  groupRotationY : Option ℚ
  wireframeScale : VecTween
  visualFrom : Option VisualParams
  visual : VisualTween
  audio : AudioTween
deriving DecidableEq, Repr

/-- Stage 1 ("Awakening"): position `{z: 1.5, x: 0.5}`, `fromTo` on
`visualParams` from the resting values to `(#4ecdc4, 0.8, 0.8)`, rotation
`y: π`, audio `bpm: 100`. -/
def stage1 : Stage :=
  { groupPosition := ⟨some 0.5, none, some 1.5⟩
    groupRotationY := some mathPI
    wireframeScale := ⟨none, none, none⟩
    visualFrom := some ⟨colorWhite, 0.3, 0.5⟩
    visual := ⟨some colorTeal, some 0.8, some 0.8⟩
    audio := ⟨some 100, none, none⟩ }

/-- Stage 2 ("Chaos"): position `{x: -1.5}`, visual
`{distort: 1.5, color: '#ff6b6b', opacity: 0.95}`, wireframe scale `1.5`,
audio `{bpm: 180, distort: 0.8}`. -/
def stage2 : Stage :=
  { groupPosition := ⟨some (-1.5), none, none⟩
    groupRotationY := none
    wireframeScale := ⟨some 1.5, some 1.5, some 1.5⟩
    visualFrom := none
    visual := ⟨some colorRed, some 1.5, some 0.95⟩
    audio := ⟨some 180, some 0.8, none⟩ }

/-- Stage 3 ("Singularity"): position `{x: 0, z: 0}`, visual
`{distort: 0, color: '#ffffff', opacity: 0.3}`, wireframe scale `1.05`,
audio `{bpm: 30, distort: 0, reverbWet: 1}`. -/
def stage3 : Stage :=
  { groupPosition := ⟨some 0, none, some 0⟩
    groupRotationY := none
    wireframeScale := ⟨some 1.05, some 1.05, some 1.05⟩
    visualFrom := none
    visual := ⟨some colorWhite, some 0, some 0.3⟩
    audio := ⟨some 30, some 0, some 1⟩ }

/-- The three tween stages of the scroll timeline, in order. -/
def timelineStages : List Stage := [stage1, stage2, stage3]

/-- Linear interpolation used by GSAP scrubbing and by
`THREE.MathUtils.lerp`: `(1 - t) * x + t * y`. -/
def lerpQ (x y t : ℚ) : ℚ := (1 - t) * x + t * y

/-- Channel-wise linear interpolation of colors (GSAP color tweening). -/
def lerpRGB (c d : RGB) (t : ℚ) : RGB :=
  ⟨lerpQ c.r d.r t, lerpQ c.g d.g t, lerpQ c.b d.b t⟩

/-- Interpolate one optional tween target: an untweened field keeps its
current value, a tweened field moves linearly toward its target. -/
def lerpOptQ (cur : ℚ) (target : Option ℚ) (t : ℚ) : ℚ :=
  match target with
  | none => cur
  | some v => lerpQ cur v t

/-- Value of the visual parameters at progress `t ∈ [0,1]` through a stage,
starting the stage at `v` (a `fromTo` stage restarts from its `from` record). -/
def applyVisual (v : VisualParams) (st : Stage) (t : ℚ) : VisualParams :=
  let base := st.visualFrom.getD v
  { color := match st.visual.color with
      | none => base.color
      | some c => lerpRGB base.color c t
    distort := lerpOptQ base.distort st.visual.distort t
    opacity := lerpOptQ base.opacity st.visual.opacity t }

/-- Value of the audio parameters at progress `t ∈ [0,1]` through a stage. -/
def applyAudio (a : AudioParams) (st : Stage) (t : ℚ) : AudioParams :=
  { bpm := lerpOptQ a.bpm st.audio.bpm t
    distort := lerpOptQ a.distort st.audio.distort t
    reverbWet := lerpOptQ a.reverbWet st.audio.reverbWet t }

/-- Value of a vector at progress `t` through a stage's per-axis tween. -/
def applyVec (p : Vec3) (tw : VecTween) (t : ℚ) : Vec3 :=
  ⟨lerpOptQ p.x tw.x t, lerpOptQ p.y tw.y t, lerpOptQ p.z tw.z t⟩

/-- Both parameter records at progress `t` through one stage. -/
def applyStage (p : VisualParams × AudioParams) (st : Stage) (t : ℚ) :
    VisualParams × AudioParams :=
  (applyVisual p.1 st t, applyAudio p.2 st t)

/-- Parameter state at the start of the timeline (the ref initialisers). -/
def paramsStart : VisualParams × AudioParams := (visualParamsInit, audioParamsInit)

/-- The tweened parameter values at scroll fraction `f ∈ [0,1]`: with
`scrub`, GSAP plays the 3-unit timeline linearly over the scroll range, so
stage `k` occupies the scroll band `[k/3, (k+1)/3)` and progresses linearly
inside it; preceding stages have fully played. -/
def paramsAtFraction (f : ℚ) : VisualParams × AudioParams :=
  if f < 1/3 then
    applyStage paramsStart stage1 (3 * f)
  else if f < 2/3 then
    applyStage (applyStage paramsStart stage1 1) stage2 (3 * f - 1)
  else
    applyStage (applyStage (applyStage paramsStart stage1 1) stage2 1) stage3 (3 * f - 2)

/-- Default position of a freshly constructed `THREE.Group` (the origin). -/
def groupPositionStart : Vec3 := ⟨0, 0, 0⟩

/-- The group's tweened position at scroll fraction `f ∈ [0,1]`, through the
same three stages (same scroll bands as `paramsAtFraction`). -/
def groupPositionAtFraction (f : ℚ) : Vec3 :=
  if f < 1/3 then
    applyVec groupPositionStart stage1.groupPosition (3 * f)
  else if f < 2/3 then
    applyVec (applyVec groupPositionStart stage1.groupPosition 1)
      stage2.groupPosition (3 * f - 1)
  else
    applyVec (applyVec (applyVec groupPositionStart stage1.groupPosition 1)
      stage2.groupPosition 1) stage3.groupPosition (3 * f - 2)

/-- The camera: the `Canvas` mounts it once with the constant prop
`camera: (position: [0, 0, 5], fov: 45)`; nothing in the repository tweens
or re-assigns the camera, so its position is the same at every scroll
fraction. -/
def cameraPositionAtFraction (_f : ℚ) : Vec3 := ⟨0, 0, 5⟩

/-! ## The audio graph (`initAudio`) and the `Tone.Loop` callback -/

/-- ADSR-style envelope settings passed to a synth constructor. -/
structure SynthEnvelope where
  attack : ℚ
  decay : ℚ
  sustain : ℚ
  release : Option ℚ
  attackCurve : Option String
deriving DecidableEq, Repr

/-- A scheduled `triggerAttackRelease(note, duration, time)` on the membrane
synth. -/
structure NoteEvent where
  note : String
  dur : String
  time : ℚ
deriving DecidableEq, Repr

/-- A scheduled `triggerAttackRelease(duration, time)` on the noise synth. -/
structure NoiseEvent where
  dur : String
  time : ℚ
deriving DecidableEq, Repr

/-- `Tone.MembraneSynth` as configured and used here (the "heart" layer). -/
structure MembraneSynth where
  volume : ℚ
  pitchDecay : ℚ
  octaves : ℚ
  oscillatorType : String
  envelope : SynthEnvelope
  dest : String
  triggers : List NoteEvent
deriving DecidableEq, Repr

/-- `Tone.NoiseSynth` as configured and used here (the "blood" layer). -/
structure NoiseSynth where
  volume : ℚ
  noiseType : String
  envelope : SynthEnvelope
  dest : String
  triggers : List NoiseEvent
deriving DecidableEq, Repr

/-- `Tone.Distortion` node: its `distortion` amount and connection. -/
structure Distortion where
  distortion : ℚ
  dest : String
deriving DecidableEq, Repr

/-- `Tone.Reverb` node: decay, preDelay, `wet` signal and connection. -/
structure Reverb where
  decay : ℚ
  preDelay : ℚ
  wet : ℚ
  dest : String
deriving DecidableEq, Repr

/-- `Tone.Loop`: its interval and whether `.start(0)` has been called. -/
structure ToneLoop where
  interval : String
  started : Bool
deriving DecidableEq, Repr

/-- The module-level `audioSystem` singleton: five nullable node references
plus the `isReady` flag. -/
structure AudioSystem where
  heart : Option MembraneSynth
  blood : Option NoiseSynth
  distortion : Option Distortion
  reverb : Option Reverb
  loop : Option ToneLoop
  isReady : Bool
deriving DecidableEq, Repr

/-- The `audioSystem` initialiser: all references null, not ready. -/
def audioSystemInit : AudioSystem :=
  { heart := none, blood := none, distortion := none, reverb := none
    loop := none, isReady := false }

/-- `Tone.Transport`: its bpm signal and whether it has been started. -/
structure Transport where
  bpm : ℚ
  started : Bool
deriving DecidableEq, Repr

/-- Global Tone.js state outside the `audioSystem` record: whether
`Tone.start()` has resumed the audio context, and the transport. -/
structure ToneState where
  ctxStarted : Bool
  transport : Transport
deriving DecidableEq, Repr

/-- The heart synth built by `initAudio` (connected to the low-pass filter). -/
def initHeart : MembraneSynth :=
  { volume := 0, pitchDecay := 0.1, octaves := 3, oscillatorType := "sine"
    envelope :=
      { attack := 0.001, decay := 0.4, sustain := 0.01, release := some 1
        attackCurve := some "exponential" }
    dest := "lowPass", triggers := [] }

/-- The blood synth built by `initAudio` (connected to the low-pass filter). -/
def initBlood : NoiseSynth :=
  { volume := -15, noiseType := "brown"
    envelope :=
      { attack := 0.01, decay := 0.3, sustain := 0, release := none
        attackCurve := none }
    dest := "lowPass", triggers := [] }

/-- The distortion node built by `initAudio`: amount 0, into the reverb. -/
def initDistortion : Distortion := { distortion := 0, dest := "reverb" }

/-- The reverb node built by `initAudio`: decay 5, preDelay 0.1, wet 0.3,
into the compressor. -/
def initReverb : Reverb :=
  { decay := 5, preDelay := 0.1, wet := 0.3, dest := "compressor" }

/-- The quarter-note loop built by `initAudio` and started at time 0. -/
def initLoop : ToneLoop := { interval := "4n", started := true }

/-- The fully constructed `audioSystem` record at the end of `initAudio`. -/
def audioSystemReady : AudioSystem :=
  { heart := some initHeart, blood := some initBlood
    distortion := some initDistortion, reverb := some initReverb
    loop := some initLoop, isReady := true }

/-- `initAudio`: returns immediately when `audioSystem.isReady`; otherwise
resumes the audio context, builds the synth graph, sets
`Tone.Transport.bpm.value = 60`, starts the transport, stores the node
references and flips `isReady`. -/
def initAudio (sys : AudioSystem) (tone : ToneState) : AudioSystem × ToneState :=
  if sys.isReady then (sys, tone)
  else (audioSystemReady, { ctxStarted := true, transport := { bpm := 60, started := true } })

/-- The `Tone.Loop` callback: triggers the heart (`C0`, quarter note) and the
blood (eighth note) at the scheduled time, and raises the beat signal. -/
def loopTick (heart : MembraneSynth) (blood : NoiseSynth) (time : ℚ) :
    MembraneSynth × NoiseSynth × Bool :=
  ({ heart with triggers := heart.triggers ++ [{ note := "C0", dur := "4n", time := time }] },
   { blood with triggers := blood.triggers ++ [{ dur := "8n", time := time }] },
   true)

/-! ## The scene graph and the `useFrame` callback -/

/-- The `THREE.Group` holding the icosahedron and the wireframe. -/
structure SceneGroup where
  position : Vec3
  rotation : Vec3
  scale : Vec3
deriving DecidableEq, Repr

/-- The `MeshDistortMaterial` fields written by the frame callback. -/
structure Material where
  color : RGB
  opacity : ℚ
  distort : ℚ
  speed : ℚ
deriving DecidableEq, Repr

/-- The wireframe mesh: its rotation and scale. -/
structure Wireframe where
  rotation : Vec3
  scale : Vec3
deriving DecidableEq, Repr

/-- Everything the `useFrame` callback reads or writes: the three nullable
refs, the heartbeat scale ref, the beat signal ref, the two parameter
records, the `audioSystem` singleton and the Tone.js globals. -/
structure SceneState where
  group : Option SceneGroup
  material : Option Material
  wireframe : Option Wireframe
  currentScale : ℚ
  beatSignal : Bool
  visualParams : VisualParams
  audioParams : AudioParams
  audioSystem : AudioSystem
  tone : ToneState
deriving DecidableEq, Repr

/-- One run of the `useFrame` callback: early-return when the group ref is
null; otherwise consume the beat signal into the heartbeat scale, lerp the
scale toward 1 with factor `min(delta, 0.1) * 8`, write it onto the group,
copy the tweened parameters onto the material (when present), spin the
wireframe (when present) from the elapsed clock, and, when the audio system
is ready, write bpm onto the transport and the audio parameters onto the
distortion and reverb nodes (each when present). -/
def useFrameStep (s : SceneState) (delta elapsed : ℚ) : SceneState :=
  match s.group with
  | none => s
  | some g =>
    let scale0 := if s.beatSignal then (1.3 : ℚ) else s.currentScale
    let beat1 := if s.beatSignal then false else s.beatSignal
    let safeDelta := min delta 0.1
    let newScale := lerpQ scale0 1 (safeDelta * 8)
    let g1 := { g with scale := ⟨newScale, newScale, newScale⟩ }
    let material1 :=
      match s.material with
      | none => s.material
      | some m =>
          some { m with
            color := s.visualParams.color
            opacity := s.visualParams.opacity
            distort := s.visualParams.distort
            speed := s.audioParams.bpm / 30 }
    let wireframe1 :=
      match s.wireframe with
      | none => s.wireframe
      | some w =>
          some { w with
            rotation := ⟨elapsed * 0.1, -(elapsed * 0.1), w.rotation.z⟩ }
    let tone1 :=
      if s.audioSystem.isReady then
        { s.tone with transport := { s.tone.transport with bpm := s.audioParams.bpm } }
      else s.tone
    let audioSystem1 :=
      if s.audioSystem.isReady then
        { s.audioSystem with
          distortion :=
            match s.audioSystem.distortion with
            | none => s.audioSystem.distortion
            | some dnode => some { dnode with distortion := s.audioParams.distort }
          reverb :=
            match s.audioSystem.reverb with
            | none => s.audioSystem.reverb
            | some rnode => some { rnode with wet := s.audioParams.reverbWet } }
      else s.audioSystem
    { s with
      group := some g1
      material := material1
      wireframe := wireframe1
      currentScale := newScale
      beatSignal := beat1
      tone := tone1
      audioSystem := audioSystem1 }

/-! ## Null-guard instrumentation

`useFrameStepE` and `setupTimelineE` repeat the two callbacks with every
dereference of a nullable reference routed through `getRef`, which fails on
null. The source's own guards (`if (!groupRef.current) return`,
`if (materialRef.current) ...`, …) are kept in place, so these versions are
total exactly when every mutation is guarded. -/

/-- Why an instrumented callback can fail. -/
inductive RefError where
  | nullRef
deriving DecidableEq, Repr

/-- Dereference a nullable reference, failing on null. -/
def getRef {α : Type} (o : Option α) : Except RefError α :=
  match o with
  | some a => Except.ok a
  | none => Except.error RefError.nullRef

/-- The `useFrame` callback with instrumented dereferences, guard for guard
as in the source. -/
def useFrameStepE (s : SceneState) (delta elapsed : ℚ) : Except RefError SceneState :=
  if s.group.isNone then Except.ok s
  else do
    let g ← getRef s.group
    let scale0 := if s.beatSignal then (1.3 : ℚ) else s.currentScale
    let beat1 := if s.beatSignal then false else s.beatSignal
    let safeDelta := min delta 0.1
    let newScale := lerpQ scale0 1 (safeDelta * 8)
    let g1 := { g with scale := ⟨newScale, newScale, newScale⟩ }
    let material1 ←
      if s.material.isSome then do
        let m ← getRef s.material
        pure (some { m with
          color := s.visualParams.color
          opacity := s.visualParams.opacity
          distort := s.visualParams.distort
          speed := s.audioParams.bpm / 30 })
      else pure s.material
    let wireframe1 ←
      if s.wireframe.isSome then do
        let w ← getRef s.wireframe
        pure (some { w with
          rotation := ⟨elapsed * 0.1, -(elapsed * 0.1), w.rotation.z⟩ })
      else pure s.wireframe
    let tone1 :=
      if s.audioSystem.isReady then
        { s.tone with transport := { s.tone.transport with bpm := s.audioParams.bpm } }
      else s.tone
    let audioSystem1 ←
      if s.audioSystem.isReady then do
        let distortion1 ←
          if s.audioSystem.distortion.isSome then do
            let dnode ← getRef s.audioSystem.distortion
            pure (some { dnode with distortion := s.audioParams.distort })
          else pure s.audioSystem.distortion
        let reverb1 ←
          if s.audioSystem.reverb.isSome then do
            let rnode ← getRef s.audioSystem.reverb
            pure (some { rnode with wet := s.audioParams.reverbWet })
          else pure s.audioSystem.reverb
        pure { s.audioSystem with distortion := distortion1, reverb := reverb1 }
      else pure s.audioSystem
    pure { s with
      group := some g1
      material := material1
      wireframe := wireframe1
      currentScale := newScale
      beatSignal := beat1
      tone := tone1
      audioSystem := audioSystem1 }

/-! ## The `useGSAP` timeline setup -/

/-- The `scrollTrigger` configuration and stage list of the timeline. -/
structure TimelineSpec where
  trigger : String
  startPos : String
  endPos : String
  scrub : ℚ
  stages : List Stage
deriving DecidableEq, Repr

/-- The timeline the `useGSAP` callback builds. -/
def timelineSpec : TimelineSpec :=
  { trigger := "#content-container", startPos := "top top"
    endPos := "bottom bottom", scrub := 1, stages := timelineStages }

/-- The `useGSAP` callback: early-return (no timeline) when the group or
wireframe ref is null; otherwise build the scroll-scrubbed timeline. -/
def setupTimeline (g : Option SceneGroup) (w : Option Wireframe) : Option TimelineSpec :=
  if g.isNone || w.isNone then none
  else some timelineSpec

/-- The `useGSAP` callback with instrumented dereferences: the tween targets
`groupRef.current.position`, `groupRef.current.rotation` and
`wireframeRef.current.scale` dereference both refs after the guard. -/
def setupTimelineE (g : Option SceneGroup) (w : Option Wireframe) :
    Except RefError (Option TimelineSpec) :=
  if g.isNone || w.isNone then Except.ok none
  else do
    let _gv ← getRef g
    let _wv ← getRef w
    pure (some timelineSpec)

/-! ## Which parameter fields the timeline tweens -/

/-- The plain parameter values (fields of `visualParams` / `audioParams`)
that a tween can target. -/
inductive TweenField where
  | vColor
  | vOpacity
  | vDistort
  | aBpm
  | aDistort
  | aReverbWet
deriving DecidableEq, Repr, Fintype

/-- The parameter fields one stage tweens. -/
def stageParamFields (st : Stage) : List TweenField :=
  (if st.visual.color.isSome then [TweenField.vColor] else []) ++
  (if st.visual.opacity.isSome then [TweenField.vOpacity] else []) ++
  (if st.visual.distort.isSome then [TweenField.vDistort] else []) ++
  (if st.audio.bpm.isSome then [TweenField.aBpm] else []) ++
  (if st.audio.distort.isSome then [TweenField.aDistort] else []) ++
  (if st.audio.reverbWet.isSome then [TweenField.aReverbWet] else [])

/-- All parameter fields tweened anywhere in the timeline. -/
def timelineParamFields : List TweenField :=
  (timelineStages.map stageParamFields).flatten

/-! ## The `App` component -/

/-- The `App` component's state: the `started` flag, the audio singleton,
the Tone.js globals and the beat signal ref. -/
structure AppState where
  started : Bool
  audioSystem : AudioSystem
  tone : ToneState
  beatSignal : Bool
deriving DecidableEq, Repr

/-- The overlay (`SYSTEM OFFLINE … CLICK TO INITIALIZE`) is rendered iff
`started` is false. -/
def overlayRendered (s : AppState) : Bool := !s.started

/-- The overlay's click handler: run `initAudio` and set `started`. -/
def handleStart (s : AppState) : AppState :=
  let p := initAudio s.audioSystem s.tone
  { s with audioSystem := p.1, tone := p.2, started := true }

/-! ## Event traces for the heartbeat-scale invariant -/

/-- An event affecting the heartbeat scale: a loop tick raising the beat
signal, or a rendered frame (with its delta and elapsed clock). -/
inductive FrameEv where
  | beat
  | frame (delta : ℚ) (elapsed : ℚ)
deriving DecidableEq, Repr

/-- Apply one event: a beat raises the signal (as the loop callback does),
a frame runs the `useFrame` callback. -/
def stepEv (s : SceneState) : FrameEv → SceneState
  | FrameEv.beat => { s with beatSignal := true }
  | FrameEv.frame d e => useFrameStep s d e

/-- Run a list of events in order. -/
def runEvents (s : SceneState) (evs : List FrameEv) : SceneState :=
  evs.foldl stepEv s

/-- A well-timed event: a frame's delta (time since the previous frame) is
nonnegative. -/
def evWellTimed : FrameEv → Prop
  | FrameEv.beat => True
  | FrameEv.frame d _ => 0 ≤ d

/-! ## Claims -/

/-- C1: the scroll-scrubbed timeline maps scroll fraction to the four
narrative parameter endpoints: it starts from the Resting state
(bpm 60, color `#ffffff`, opacity 0.5, distort 0.3), and the stages end at
(bpm 100, color `#4ecdc4`, opacity 0.8, distort 0.8), then (bpm 180, color
`#ff6b6b`, opacity 0.95, audio distortion 0.8), then (bpm 30, color
`#ffffff`, opacity 0.3, distort 0, reverb wet 1). -/
theorem timeline_stage_endpoints :
    paramsAtFraction 0 = (⟨colorWhite, 0.3, 0.5⟩, ⟨60, 0, 0.3⟩) ∧
    paramsAtFraction (1/3) = (⟨colorTeal, 0.8, 0.8⟩, ⟨100, 0, 0.3⟩) ∧
    paramsAtFraction (2/3) = (⟨colorRed, 1.5, 0.95⟩, ⟨180, 0.8, 0.3⟩) ∧
    paramsAtFraction 1 = (⟨colorWhite, 0, 0.3⟩, ⟨30, 0, 1⟩) := by
  refine ⟨?_, ?_, ?_, ?_⟩ <;>
    norm_num [paramsAtFraction, applyStage, applyVisual, applyAudio, paramsStart,
      visualParamsInit, audioParamsInit, stage1, stage2, stage3, lerpOptQ, lerpQ,
      lerpRGB, colorWhite, colorTeal, colorRed]

/-- A mounted group as the refs see it on the first frame. -/
def witGroup : SceneGroup :=
  { position := ⟨0, 0, 0⟩, rotation := ⟨0, 0, 0⟩, scale := ⟨1, 1, 1⟩ }

/-- The material with its JSX initial props. -/
def witMaterial : Material :=
  { color := colorWhite, opacity := 0.5, distort := 0.3, speed := 2 }

/-- The wireframe mesh with its JSX initial scale. -/
def witWireframe : Wireframe :=
  { rotation := ⟨0, 0, 0⟩, scale := ⟨1.05, 1.05, 1.05⟩ }

/-- A fully mounted scene after `initAudio` has completed. -/
def sceneReady : SceneState :=
  { group := some witGroup, material := some witMaterial
    wireframe := some witWireframe, currentScale := 1, beatSignal := false
    visualParams := visualParamsInit, audioParams := audioParamsInit
    audioSystem := audioSystemReady
    tone := { ctxStarted := true, transport := { bpm := 60, started := true } } }

/-- The same mounted scene before any click: audio never initialised. -/
def sceneOffline : SceneState :=
  { sceneReady with
    audioSystem := audioSystemInit
    tone := { ctxStarted := false, transport := { bpm := 120, started := false } } }

/-- `sceneReady` with the beat signal raised by the loop callback. -/
def sceneBeat : SceneState := { sceneReady with beatSignal := true }

/-- C2: in every frame where the material ref (and the group ref, which the
callback checks first) is non-null, the callback copies the tweened
parameters onto the material — color, opacity, distort, and
`speed = bpm / 30` — and, whenever the audio system is ready, copies the
audio parameters onto the transport bpm, the distortion amount and the
reverb wet. -/
theorem useFrame_writes_material_and_audio (s : SceneState) (d e : ℚ)
    (g : SceneGroup) (m : Material)
    (hg : s.group = some g) (hm : s.material = some m) :
    (useFrameStep s d e).material =
      some { m with
        color := s.visualParams.color
        opacity := s.visualParams.opacity
        distort := s.visualParams.distort
        speed := s.audioParams.bpm / 30 } ∧
    (s.audioSystem.isReady = true →
      (useFrameStep s d e).tone.transport.bpm = s.audioParams.bpm ∧
      (∀ dnode : Distortion, s.audioSystem.distortion = some dnode →
        (useFrameStep s d e).audioSystem.distortion =
          some { dnode with distortion := s.audioParams.distort }) ∧
      (∀ rnode : Reverb, s.audioSystem.reverb = some rnode →
        (useFrameStep s d e).audioSystem.reverb =
          some { rnode with wet := s.audioParams.reverbWet })) := by
  unfold useFrameStep
  rw [hg]
  refine ⟨by simp [hm], ?_⟩
  intro hr
  refine ⟨by simp [hr], ?_, ?_⟩
  · intro dnode hd
    simp [hr, hd]
  · intro rnode hrv
    simp [hr, hrv]

/-- Witness for C2 at the mounted, audio-ready scene. -/
theorem useFrame_writes_material_and_audio_witness :
    (useFrameStep sceneReady 0 0).material =
      some { witMaterial with
        color := sceneReady.visualParams.color
        opacity := sceneReady.visualParams.opacity
        distort := sceneReady.visualParams.distort
        speed := sceneReady.audioParams.bpm / 30 } ∧
    (useFrameStep sceneReady 0 0).tone.transport.bpm = sceneReady.audioParams.bpm ∧
    (useFrameStep sceneReady 0 0).audioSystem.distortion =
      some { initDistortion with distortion := sceneReady.audioParams.distort } ∧
    (useFrameStep sceneReady 0 0).audioSystem.reverb =
      some { initReverb with wet := sceneReady.audioParams.reverbWet } := by
  have h := useFrame_writes_material_and_audio sceneReady 0 0 witGroup witMaterial rfl rfl
  exact ⟨h.1, (h.2 rfl).1, (h.2 rfl).2.1 initDistortion rfl, (h.2 rfl).2.2 initReverb rfl⟩

/-- Counterexample to C3 as stated: with the beat signal raised and a
typical frame delta of 1/60 s, the frame clears the flag but writes
`63/50 = 1.26` — not `1.3` — onto the group's scale, because the callback
lerps the freshly reset heartbeat scale toward 1 before applying it. -/
theorem beat_frame_scale_cex :
    sceneBeat.beatSignal = true ∧
    (useFrameStep sceneBeat (1/60) 0).beatSignal = false ∧
    (useFrameStep sceneBeat (1/60) 0).currentScale = 63/50 ∧
    (useFrameStep sceneBeat (1/60) 0).group =
      some { witGroup with scale := ⟨63/50, 63/50, 63/50⟩ } ∧
    (63/50 : ℚ) ≠ 1.3 := by
  refine ⟨rfl, ?_, ?_, ?_, by norm_num⟩ <;>
    norm_num [useFrameStep, sceneBeat, sceneReady, witGroup, lerpQ, min_def]

/-- C3 as amended: a loop tick triggers both synths (heart: `C0` for a
quarter note, blood: an eighth note) and raises the beat signal; on the
next frame with the signal raised, the callback resets the heartbeat scale
to 1.3, clears the signal, and writes onto the group's scale the value of
one lerp step from 1.3 toward 1 with factor `min(delta, 0.1) * 8` — equal
to 1.3 itself only when the frame delta is 0. -/
theorem beat_frame_response (heart : MembraneSynth) (blood : NoiseSynth)
    (time : ℚ) (s : SceneState) (d e : ℚ) (g : SceneGroup)
    (hg : s.group = some g) (hb : s.beatSignal = true) :
    (loopTick heart blood time).1.triggers =
      heart.triggers ++ [{ note := "C0", dur := "4n", time := time }] ∧
    (loopTick heart blood time).2.1.triggers =
      blood.triggers ++ [{ dur := "8n", time := time }] ∧
    (loopTick heart blood time).2.2 = true ∧
    (useFrameStep s d e).beatSignal = false ∧
    (useFrameStep s d e).currentScale = lerpQ 1.3 1 (min d 0.1 * 8) ∧
    (useFrameStep s d e).group =
      some { g with
        scale := ⟨lerpQ 1.3 1 (min d 0.1 * 8), lerpQ 1.3 1 (min d 0.1 * 8),
          lerpQ 1.3 1 (min d 0.1 * 8)⟩ } := by
  refine ⟨rfl, rfl, rfl, ?_, ?_, ?_⟩ <;>
    · unfold useFrameStep
      rw [hg]
      simp [hb]

/-- Witness for the amended C3 at the beat-raised scene and delta 1/60. -/
theorem beat_frame_response_witness :
    (loopTick initHeart initBlood 0).1.triggers =
      initHeart.triggers ++ [{ note := "C0", dur := "4n", time := 0 }] ∧
    (loopTick initHeart initBlood 0).2.1.triggers =
      initBlood.triggers ++ [{ dur := "8n", time := 0 }] ∧
    (loopTick initHeart initBlood 0).2.2 = true ∧
    (useFrameStep sceneBeat (1/60) 0).beatSignal = false ∧
    (useFrameStep sceneBeat (1/60) 0).currentScale = lerpQ 1.3 1 (min (1/60) 0.1 * 8) ∧
    (useFrameStep sceneBeat (1/60) 0).group =
      some { witGroup with
        scale := ⟨lerpQ 1.3 1 (min (1/60) 0.1 * 8), lerpQ 1.3 1 (min (1/60) 0.1 * 8),
          lerpQ 1.3 1 (min (1/60) 0.1 * 8)⟩ } :=
  beat_frame_response initHeart initBlood 0 sceneBeat (1/60) 0 witGroup rfl rfl

/-- C4: every mutation of a nullable scene-graph or audio-graph reference in
the per-frame callback and in the timeline setup sits behind a null check:
the dereference-instrumented versions of both callbacks never fail, on any
state, and agree with the plain versions. -/
theorem null_guards_complete :
    (∀ (s : SceneState) (d e : ℚ), useFrameStepE s d e = Except.ok (useFrameStep s d e)) ∧
    (∀ (g : Option SceneGroup) (w : Option Wireframe),
      setupTimelineE g w = Except.ok (setupTimeline g w)) := by
  constructor
  · intro s d e
    obtain ⟨og, om, ow, cs, bs, vp, ap, sys, tn⟩ := s
    obtain ⟨oh, ob, od, orv, ol, ready⟩ := sys
    cases og <;> cases om <;> cases ow <;> cases ready <;> cases od <;> cases orv <;> rfl
  · intro g w
    cases g <;> cases w <;> rfl

/-- Counterexample to C5 as stated: the camera's position is the same
constant `(0, 0, 5)` at every stage boundary of the scroll range — it never
changes — while the group's position does change over the same scroll
advance. -/
theorem camera_motion_cex :
    cameraPositionAtFraction 0 = ⟨0, 0, 5⟩ ∧
    cameraPositionAtFraction (1/3) = ⟨0, 0, 5⟩ ∧
    cameraPositionAtFraction (2/3) = ⟨0, 0, 5⟩ ∧
    cameraPositionAtFraction 1 = ⟨0, 0, 5⟩ ∧
    groupPositionAtFraction (1/3) ≠ groupPositionAtFraction 0 := by
  refine ⟨rfl, rfl, rfl, rfl, ?_⟩
  norm_num [groupPositionAtFraction, applyVec, lerpOptQ, lerpQ,
    groupPositionStart, stage1, stage2, stage3]

/-- C5 as amended: the synchronized motion accompanying the four states is
the mesh group's, not the camera's: the camera stays at `(0, 0, 5)` for
every scroll fraction, while the timeline tweens the group's position
through `(0,0,0) → (0.5, 0, 1.5) → (-1.5, 0, 1.5) → (0, 0, 0)` in the same
stages as the color, distortion and sound parameters. -/
theorem camera_static_group_position_moves :
    (∀ f : ℚ, cameraPositionAtFraction f = ⟨0, 0, 5⟩) ∧
    groupPositionAtFraction 0 = ⟨0, 0, 0⟩ ∧
    groupPositionAtFraction (1/3) = ⟨0.5, 0, 1.5⟩ ∧
    groupPositionAtFraction (2/3) = ⟨-1.5, 0, 1.5⟩ ∧
    groupPositionAtFraction 1 = ⟨0, 0, 0⟩ := by
  refine ⟨fun _ => rfl, ?_, ?_, ?_, ?_⟩ <;>
    norm_num [groupPositionAtFraction, applyVec, lerpOptQ, lerpQ,
      groupPositionStart, stage1, stage2, stage3]

/-- Counterexample to C6 as stated: the reverb-wet parameter is tweened by
the timeline (stage 3) and is none of the four values the claim allows
(color, opacity scalar, distortion scalar, tempo). -/
theorem tween_fields_cex :
    TweenField.aReverbWet ∈ timelineParamFields ∧
    TweenField.aReverbWet ∉
      [TweenField.vColor, TweenField.vOpacity, TweenField.vDistort, TweenField.aBpm] := by
  constructor <;>
    simp [timelineParamFields, timelineStages, stageParamFields, stage1, stage2, stage3]

/-- C6 as amended: the timeline tweens exactly six plain in-memory parameter
values, each read once per rendered frame — the visual color, opacity and
distortion, the tempo (bpm), the audio distortion amount and the reverb
wet. -/
theorem timeline_tweens_six_params :
    ∀ fld : TweenField, fld ∈ timelineParamFields := by
  intro fld
  cases fld <;>
    simp [timelineParamFields, timelineStages, stageParamFields, stage1, stage2, stage3]

/-- A freshly loaded page: not started, audio singleton in its initial
state, context not resumed, transport at Tone.js defaults. -/
def appFresh : AppState :=
  { started := false, audioSystem := audioSystemInit
    tone := { ctxStarted := false, transport := { bpm := 120, started := false } }
    beatSignal := false }

/-- C7: clicking the start overlay runs `initAudio` — building the synth
graph, setting the transport to bpm 60 and starting it, and starting the
quarter-note loop — and marks the experience as started, after which the
overlay is no longer rendered. -/
theorem click_starts_audio (s : AppState) (hready : s.audioSystem.isReady = false) :
    (handleStart s).started = true ∧
    overlayRendered (handleStart s) = false ∧
    (handleStart s).audioSystem = audioSystemReady ∧
    (handleStart s).audioSystem.loop = some { interval := "4n", started := true } ∧
    (handleStart s).tone =
      { ctxStarted := true, transport := { bpm := 60, started := true } } := by
  unfold handleStart overlayRendered initAudio
  simp [hready, audioSystemReady, initLoop]

/-- Witness for C7 on a freshly loaded page. -/
theorem click_starts_audio_witness :
    (handleStart appFresh).started = true ∧
    overlayRendered (handleStart appFresh) = false ∧
    (handleStart appFresh).audioSystem = audioSystemReady ∧
    (handleStart appFresh).audioSystem.loop = some { interval := "4n", started := true } ∧
    (handleStart appFresh).tone =
      { ctxStarted := true, transport := { bpm := 60, started := true } } :=
  click_starts_audio appFresh rfl

/-- C9: `initAudio` is idempotent once ready — with `isReady` true it
returns immediately, leaving the audio system record and the Tone.js
globals (transport included) unchanged. -/
theorem initAudio_idempotent (sys : AudioSystem) (tone : ToneState)
    (hready : sys.isReady = true) :
    initAudio sys tone = (sys, tone) := by
  unfold initAudio
  simp [hready]

/-- Witness for C9 at the fully initialised audio system. -/
theorem initAudio_idempotent_witness :
    initAudio audioSystemReady
        { ctxStarted := true, transport := { bpm := 60, started := true } } =
      (audioSystemReady, { ctxStarted := true, transport := { bpm := 60, started := true } }) :=
  initAudio_idempotent audioSystemReady
    { ctxStarted := true, transport := { bpm := 60, started := true } } rfl

/-- C10: with the scene mounted, the material's animation speed is set to
`bpm / 30` on every frame whether or not the audio system is ready, while a
frame in which the audio system is not ready leaves the Tone.js globals and
the audio system record untouched. -/
theorem speed_always_audio_gated (s : SceneState) (d e : ℚ)
    (g : SceneGroup) (m : Material)
    (hg : s.group = some g) (hm : s.material = some m) :
    (∃ m2 : Material, (useFrameStep s d e).material = some m2 ∧
      m2.speed = s.audioParams.bpm / 30) ∧
    (s.audioSystem.isReady = false →
      (useFrameStep s d e).tone = s.tone ∧
      (useFrameStep s d e).audioSystem = s.audioSystem) := by
  unfold useFrameStep
  rw [hg]
  constructor
  · exact ⟨{ m with
        color := s.visualParams.color
        opacity := s.visualParams.opacity
        distort := s.visualParams.distort
        speed := s.audioParams.bpm / 30 }, by simp [hm], rfl⟩
  · intro hr
    exact ⟨by simp [hr], by simp [hr]⟩

/-- Witness for C10 at the mounted scene with audio never initialised. -/
theorem speed_always_audio_gated_witness :
    (∃ m2 : Material, (useFrameStep sceneOffline 0 0).material = some m2 ∧
      m2.speed = sceneOffline.audioParams.bpm / 30) ∧
    (useFrameStep sceneOffline 0 0).tone = sceneOffline.tone ∧
    (useFrameStep sceneOffline 0 0).audioSystem = sceneOffline.audioSystem := by
  have h := speed_always_audio_gated sceneOffline 0 0 witGroup witMaterial rfl rfl
  exact ⟨h.1, (h.2 rfl).1, (h.2 rfl).2⟩

/-- One lerp step of the heartbeat scale stays inside `[1, 1.3]` when it
starts there and the frame delta is nonnegative: the factor
`min(delta, 0.1) * 8` lies in `[0, 0.8]`. -/
lemma lerp_scale_bounds (a d : ℚ) (ha1 : 1 ≤ a) (ha2 : a ≤ 1.3) (hd : 0 ≤ d) :
    1 ≤ lerpQ a 1 (min d 0.1 * 8) ∧ lerpQ a 1 (min d 0.1 * 8) ≤ 1.3 := by
  have hmin0 : (0:ℚ) ≤ min d 0.1 := le_min hd (by norm_num)
  have hmin1 : min d 0.1 ≤ 0.1 := min_le_right d 0.1
  have hk0 : (0:ℚ) ≤ min d 0.1 * 8 := by linarith
  have hk1 : min d 0.1 * 8 ≤ 4/5 := by linarith
  unfold lerpQ
  constructor
  · nlinarith [mul_nonneg (by linarith : (0:ℚ) ≤ 1 - min d 0.1 * 8)
      (by linarith : (0:ℚ) ≤ a - 1)]
  · nlinarith [mul_nonneg hk0 (by linarith : (0:ℚ) ≤ a - 1)]

/-- The frame callback keeps the heartbeat scale inside `[1, 1.3]`. -/
lemma useFrameStep_scale_bounds (s : SceneState) (d e : ℚ) (hd : 0 ≤ d)
    (h1 : 1 ≤ s.currentScale) (h2 : s.currentScale ≤ 1.3) :
    1 ≤ (useFrameStep s d e).currentScale ∧ (useFrameStep s d e).currentScale ≤ 1.3 := by
  unfold useFrameStep
  rcases hO : s.group with _ | g
  · simpa using ⟨h1, h2⟩
  · simp only []
    by_cases hb : s.beatSignal
    · simpa [hb] using lerp_scale_bounds 1.3 d (by norm_num) (by norm_num) hd
    · simpa [hb] using lerp_scale_bounds s.currentScale d h1 h2 hd

/-- Every state reached by beats and well-timed frames from a state with
scale in `[1, 1.3]` keeps the scale in `[1, 1.3]`. -/
lemma runEvents_scale_bounds (evs : List FrameEv) : ∀ s : SceneState,
    1 ≤ s.currentScale → s.currentScale ≤ 1.3 →
    (∀ ev ∈ evs, evWellTimed ev) →
    1 ≤ (runEvents s evs).currentScale ∧ (runEvents s evs).currentScale ≤ 1.3 := by
  induction evs with
  | nil => exact fun s h1 h2 _ => ⟨h1, h2⟩
  | cons ev rest ih =>
    intro s h1 h2 hok
    have hev : evWellTimed ev := hok ev (List.mem_cons_self ev rest)
    have hrest : ∀ ev2 ∈ rest, evWellTimed ev2 :=
      fun ev2 hm => hok ev2 (List.mem_cons_of_mem ev hm)
    cases ev with
    | beat => exact ih { s with beatSignal := true } h1 h2 hrest
    | frame d e =>
      have hstep := useFrameStep_scale_bounds s d e hev h1 h2
      exact ih (useFrameStep s d e) hstep.1 hstep.2 hrest

/-- C8: the heartbeat scale always lies in `[1, 1.3]`: from any state whose
scale is in the band (the initial value is 1), any sequence of beats and of
frames with nonnegative deltas — a beat resets the scale to exactly 1.3,
and a frame lerps it toward 1 with factor `min(delta, 0.1) * 8 ≤ 0.8` —
never drives the scale below 1 or above 1.3. -/
theorem heartbeat_scale_in_unit_band (s : SceneState) (evs : List FrameEv)
    (h1 : 1 ≤ s.currentScale) (h2 : s.currentScale ≤ 1.3)
    (hok : ∀ ev ∈ evs, evWellTimed ev) :
    1 ≤ (runEvents s evs).currentScale ∧ (runEvents s evs).currentScale ≤ 1.3 :=
  runEvents_scale_bounds evs s h1 h2 hok

/-- A short concrete trace: a beat, then two frames at 60 fps and 30 fps. -/
def evsWitness : List FrameEv :=
  [FrameEv.beat, FrameEv.frame (1/60) 0, FrameEv.frame (1/30) (1/20)]

/-- Witness for C8 on the mounted scene and the concrete trace. -/
theorem heartbeat_scale_in_unit_band_witness :
    1 ≤ (runEvents sceneReady evsWitness).currentScale ∧
    (runEvents sceneReady evsWitness).currentScale ≤ 1.3 := by
  refine heartbeat_scale_in_unit_band sceneReady evsWitness
    (by norm_num [sceneReady]) (by norm_num [sceneReady]) ?_
  intro ev hev
  simp only [evsWitness, List.mem_cons, List.not_mem_nil, or_false] at hev
  rcases hev with rfl | rfl | rfl <;> norm_num [evWellTimed]

end Portfolio
